import Mathlib

/-
Verification of the container-orchestration script `run_docker.py`
(BraTS DREAM challenge infrastructure) against its design specification.

The script is shallowly embedded below: pure helper functions become Lean
functions, the stateful per-case loop becomes explicit state passing over a
`RunState` record, and Python exceptions become explicit `PyErr` values
threaded through `Except` / `Option PyErr` results.  External collaborators
(the docker runtime, the Synapse storage service, the filesystem) are
modelled by explicit trace parameters supplied to the orchestrator.
-/

set_option autoImplicit false

namespace RunDocker

/-- Python exceptions that the embedded code fragments can raise or observe.
`osError` stands for the `OSError`/filesystem-error class; it is present so
that theorems can state that a run did *not* fail with a filesystem error. -/
inductive PyErr where
  | attributeError (name : String)
  | nameError (name : String)
  | typeError
  | unicodeDecodeError
  | exception (msg : String)
  | osError (msg : String)
deriving DecidableEq

/-- Python values that can appear as attributes of the parsed `argparse`
namespace.  `argparse` stores options without a `type=` converter as `str`
(or `None` when the option is absent), which is why `runtime_quota` shows up
as a `str` at the comparison site. -/
inductive PyVal where
  | str (s : String)
  | int (n : Int)
  | bool (b : Bool)
  | noneV
deriving DecidableEq

/-- Rendering of a `PyVal` inside an f-string, as Python `str()` would. -/
def pyRender : PyVal → String
  | .str s => s
  | .int n => toString n
  | .bool b => if b then "True" else "False"
  | .noneV => "None"

/-- Python truthiness of a `PyVal` (used for `if not store:`). -/
def pyTruthy : PyVal → Bool
  | .str s => !(s == "")
  | .int n => !(n == 0)
  | .bool b => b
  | .noneV => false

/-- Python 3 semantics of `x > v` where `x` is a float (modelled as a
rational, which is exact for every value arising here) and `v` is an
arbitrary object: comparing a float with a `str` or with `None` raises
`TypeError`; `int` and `bool` compare numerically. -/
def pyGtQ (x : ℚ) : PyVal → Except PyErr Bool
  | .int n => .ok (decide ((n : ℚ) < x))
  | .bool b => .ok (decide ((if b then (1 : ℚ) else 0) < x))
  | .str _ => .error .typeError
  | .noneV => .error .typeError

/-- The `args` namespace produced by `argparse`: a finite map from attribute
names to values.  Attribute access on a missing name raises
`AttributeError`, which is what `getattr` returns in the error case. -/
structure PyArgs where
  attrs : List (String × PyVal)

/-- Python attribute lookup `args.<name>` on a parsed-arguments namespace. -/
def getattr (a : PyArgs) (name : String) : Except PyErr PyVal :=
  match a.attrs.lookup name with
  | some v => .ok v
  | Option.none => .error (.attributeError name)

/-! ## Log Sink (`create_log_file`, lines 14-22)

`create_log_file` opens the log file in mode `'w'` (truncating any previous
content), decodes a `bytes` payload with `bytes.decode("utf-8")` — which is
*strict*: an undecodable sequence raises `UnicodeDecodeError` — and then
drops non-ASCII code points via `str.encode("ascii", "ignore")`. -/

/-- A value passed as `log_text`: either raw bytes from `container.logs()`
or an already-decoded string. -/
inductive LogText where
  | bytes (bs : List Nat)
  | str (s : String)
deriving DecidableEq

/-- Is `b` a UTF-8 continuation byte (`0x80..0xBF`)? -/
def isCont (b : Nat) : Bool := 0x80 ≤ b && b < 0xC0

/-- Admissible first continuation byte of a 3-byte sequence led by `b`
(per RFC 3629: leads `0xE0`/`0xED` restrict it to exclude overlong forms
and surrogates). -/
def cont1ok3 (b b1 : Nat) : Bool :=
  if b == 0xE0 then 0xA0 ≤ b1 && b1 ≤ 0xBF
  else if b == 0xED then 0x80 ≤ b1 && b1 ≤ 0x9F
  else isCont b1

/-- Admissible first continuation byte of a 4-byte sequence led by `b`
(leads `0xF0`/`0xF4` restrict it to exclude overlong forms and code points
above `U+10FFFF`). -/
def cont1ok4 (b b1 : Nat) : Bool :=
  if b == 0xF0 then 0x90 ≤ b1 && b1 ≤ 0xBF
  else if b == 0xF4 then 0x80 ≤ b1 && b1 ≤ 0x8F
  else isCont b1

/-- Strict UTF-8 decoding of a byte list, as Python `bytes.decode("utf-8")`
performs it: `none` models a raised `UnicodeDecodeError`. -/
def utf8DecodeChars : List Nat → Option (List Char)
  | [] => some []
  | b :: rest =>
    if b ≤ 0x7F then (utf8DecodeChars rest).map (fun cs => Char.ofNat b :: cs)
    else if b < 0xC2 then Option.none
    else if b ≤ 0xDF then
      match rest with
      | b1 :: r =>
        if isCont b1 then
          (utf8DecodeChars r).map
            (fun cs => Char.ofNat ((b - 0xC0) * 64 + (b1 - 0x80)) :: cs)
        else Option.none
      | [] => Option.none
    else if b ≤ 0xEF then
      match rest with
      | b1 :: b2 :: r =>
        if cont1ok3 b b1 && isCont b2 then
          (utf8DecodeChars r).map
            (fun cs =>
              Char.ofNat ((b - 0xE0) * 4096 + (b1 - 0x80) * 64 + (b2 - 0x80)) :: cs)
        else Option.none
      | _ => Option.none
    else if b ≤ 0xF4 then
      match rest with
      | b1 :: b2 :: b3 :: r =>
        if cont1ok4 b b1 && isCont b2 && isCont b3 then
          (utf8DecodeChars r).map
            (fun cs =>
              Char.ofNat ((b - 0xF0) * 262144 + (b1 - 0x80) * 4096 +
                (b2 - 0x80) * 64 + (b3 - 0x80)) :: cs)
        else Option.none
      | _ => Option.none
    else Option.none

/-- `str.encode("ascii", "ignore").decode("ascii")`: drop every code point
above `0x7F`, keep the rest. -/
def asciiIgnore (s : String) : String :=
  String.mk (s.data.filter (fun c => c.toNat ≤ 127))

/-- The byte sequence of an ASCII string (used to feed simulated
`container.logs()` output into the model). -/
def strBytes (s : String) : List Nat := s.data.map Char.toNat

/-- Embedding of `create_log_file(log_filename, log_text)` (lines 14-22) as a
function from the previous file content to the new file content (the file is
opened with mode `'w'`, so the body never reads `prevContent` — each call
replaces the file's content wholesale).  A `bytes` payload is first decoded
with strict UTF-8; failure of that decode is a raised `UnicodeDecodeError`.
A missing payload writes the literal text `"No Logs"`. -/
def create_log_file (prevContent : String) (log_text : Option LogText) :
    Except PyErr String :=
  match log_text with
  | Option.none => .ok "No Logs"
  | some (.str s) => .ok (asciiIgnore s)
  | some (.bytes bs) =>
    match utf8DecodeChars bs with
    | some cs => .ok (asciiIgnore (String.mk cs))
    | Option.none => .error .unicodeDecodeError

/-- A sequence of drains for one case, each forwarded whole to
`create_log_file` against the file content left by the previous call: the
file starts empty (line 154 creates it with `open(..., 'w').close()`). -/
def drainSequence (texts : List LogText) : Except PyErr String :=
  texts.foldlM (fun prev t => create_log_file prev (some t)) ""

/-! ## Durable storage (`store_log_file`, lines 25-34)

`store_log_file` stats the log file and, when
`st_size > 0 and st_size/1000.0 <= 50`, builds a `synapseclient.File`
entity; the actual `syn.store` call is guarded by `if not store:` — i.e. it
happens only when the `store` flag is *False*.  The division is exact here
(`st_size/1000.0 <= 50` holds exactly when `st_size <= 50000` for every
integer size representable as a double), so it is modelled over `ℚ`.  A
`SynapseHTTPError` from `syn.store` would be caught and printed, so the
function itself never raises; its only observable effect is the number of
`syn.store` calls, which is what the embedding returns. -/
def sizeWithinCeiling (st_size : Nat) : Prop := (st_size : ℚ) / 1000 ≤ 50

/-- The size ceiling is decidable by the equivalent integer comparison
(exact: the two sides agree for every natural number size). -/
instance (st_size : Nat) : Decidable (sizeWithinCeiling st_size) :=
  decidable_of_iff (st_size ≤ 50000) (by
    unfold sizeWithinCeiling
    rw [div_le_iff₀ (by norm_num : (0 : ℚ) < 1000)]
    norm_num)

/-- The number of `syn.store` calls `store_log_file` performs for a log
file of `st_size` bytes with the given `store` flag (lines 25-34). -/
def store_log_file_calls (st_size : Nat) (store : Bool) : Nat :=
  if 0 < st_size ∧ sizeWithinCeiling st_size then
    (if !store then 1 else 0)
  else 0

/-! ## Case Enumerator (`os.walk` over `args.input_dir`, lines 106-109)

The loop is `for root, sub_dirs, _ in os.walk(args.input_dir): for sub_dir
in sub_dirs: ...` — note that `os.walk` is *recursive*: after yielding the
root with its immediate subdirectories it descends into every subdirectory
and yields those as well, so nested directories also become case units.
With the default `onerror=None`, the initial `scandir` error on a missing
or non-directory root is silently swallowed and the walk yields nothing. -/

mutual
/-- A directory: its name and its subdirectories (files are irrelevant to
the enumeration, which only consumes the `sub_dirs` component). -/
inductive DirTree where
  | node (name : String) (children : DirForest)
/-- A (finite, ordered) list of sibling directories. -/
inductive DirForest where
  | nil
  | cons (head : DirTree) (tail : DirForest)
end

def DirTree.name : DirTree → String
  | .node n _ => n

def DirTree.children : DirTree → DirForest
  | .node _ cs => cs

/-- The names of the trees of a forest, in order (the `sub_dirs` list that
`os.walk` reports for their parent). -/
def DirForest.names : DirForest → List String
  | .nil => []
  | .cons t ts => t.name :: ts.names

/-- `String.startsWith`, restated over the character lists so that concrete
instances reduce inside the kernel. -/
def strStartsWith (s pre : String) : Bool := pre.data.isPrefixOf s.data

/-- `String.endsWith`, restated over the character lists. -/
def strEndsWith (s suf : String) : Bool := suf.data.isSuffixOf s.data

/-- `os.path.join(a, b)` for POSIX paths with a single extra component. -/
def pathJoin (a b : String) : String :=
  if strStartsWith b "/" then b
  else if a == "" || strEndsWith a "/" then a ++ b
  else a ++ "/" ++ b

/-- Python `s[-5:]` generalised: the final `n` characters of `s` (the whole
string when it is shorter than `n`). -/
def pyTakeLast (n : Nat) (s : String) : String :=
  String.mk ((s.data.reverse.take n).reverse)

mutual
/-- `os.walk(path)` over a directory tree, top-down: yield
`(path, names of subdirectories)` then recurse into each subdirectory. -/
def walkTree (path : String) : DirTree → List (String × List String)
  | .node _ cs => (path, cs.names) :: walkForest path cs
/-- The concatenated walks of the trees of a forest rooted below `path`. -/
def walkForest (path : String) : DirForest → List (String × List String)
  | .nil => []
  | .cons t ts => walkTree (pathJoin path t.name) t ++ walkForest path ts
end

/-- The state of the input root on disk: missing, present but not a
directory, or a directory tree. -/
inductive RootFS where
  | missing
  | nondir
  | dir (t : DirTree)

/-- `os.walk(root)` including its silent behaviour on a bad root: with the
default `onerror=None` the `scandir` failure on a missing or non-directory
root is ignored and the generator is empty. -/
def osWalk (root : String) : RootFS → List (String × List String)
  | .missing => []
  | .nondir => []
  | .dir t => walkTree root t

/-- The case units produced by one `(root, sub_dirs, _)` entry of the walk:
lines 107-109 build `case_folder = os.path.join(root, sub_dir)` and
`case_id = case_folder[-5:]` for each reported subdirectory. -/
def unitsOf (rs : String × List String) : List (String × String) :=
  rs.2.map (fun sub =>
    let cf := pathJoin rs.1 sub
    (cf, pyTakeLast 5 cf))

/-- The full sequence of `(case_folder, case_id)` units enumerated by the
nested loops of lines 106-109. -/
def caseUnits (inputDir : String) (fs : RootFS) : List (String × String) :=
  (osWalk inputDir fs).flatMap unitsOf

/-! Counting descendants, for the amended enumeration property. -/

mutual
/-- The number of descendant directories of a tree, at every depth (its
children, their children, and so on — excluding the tree's own root). -/
def treeSubCount : DirTree → Nat
  | .node _ cs => forestDirCount cs
/-- The number of directories of a forest, at every depth (each tree of the
forest together with all of its descendants). -/
def forestDirCount : DirForest → Nat
  | .nil => 0
  | .cons t ts => 1 + treeSubCount t + forestDirCount ts
end

/-- The sum of `treeSubCount` over the trees of a forest. -/
def forestSubSum : DirForest → Nat
  | .nil => 0
  | .cons t ts => treeSubCount t + forestSubSum ts

mutual
/-- Every directory name in the tree is non-empty (true of any directory
tree an actual filesystem can present). -/
def treeOK : DirTree → Bool
  | .node n cs => (!(n == "")) && forestOK cs
/-- Every directory name in the forest is non-empty. -/
def forestOK : DirForest → Bool
  | .nil => true
  | .cons t ts => treeOK t && forestOK ts
end

/-! ## Execution Monitor and per-case pipeline (`main`, lines 79-206)

The per-case loop body (lines 111-191) is embedded as a function over an
explicit `RunState`.  The docker runtime and the wall clock are supplied as
a trace: one `Tick` per evaluation of the `while container in
client.containers.list()` condition, carrying the liveness answer, the
elapsed time `time.time() - start_time` observed at line 161, and the full
log history `container.logs()` would return at that tick.  Exceptions are
returned as `Option PyErr` next to the state reached when they escape. -/

/-- One evaluation of the polling loop's condition and body. -/
structure Tick where
  live : Bool
  elapsed : ℚ
  logs : List Nat
deriving DecidableEq

/-- The behaviour of the container runtime for one case: the outcome of
`client.containers.run` (`Except.error msg` models a raised
`docker.errors.APIError` with text `msg`), the polling trace, and the
response of the final `container.logs()` call at line 180 (which itself can
raise, e.g. `NotFound` for a handle left over from a previous case). -/
structure CaseEnvR where
  launch : Except String Nat
  ticks : List Tick
  finalLogs : Except PyErr (List Nat)

/-- Observable state threaded through the per-case loop.  `containerVar`
and `errorsVar` model the Python locals `container` and `errors`: `none`
means *unbound* (referencing them raises `NameError`); the source never
initialises either before the `try` block.  `logFile` is the content of the
per-submission log file (`none` before it is first created).  The counters
record calls to `remove_docker_container` (with the name passed),
`container.stop()`, `container.remove()`, `client.containers.run` and
`syn.store`. -/
structure RunState where
  containerVar : Option Nat := Option.none
  errorsVar : Option String := Option.none
  logFile : Option String := Option.none
  launches : Nat := 0
  cleanups : List String := []
  stops : Nat := 0
  removes : Nat := 0
  storeCalls : Nat := 0
deriving DecidableEq

/-- The initial state of `main`'s loop: no local bound, no file, no calls. -/
def initRunState : RunState := {}

/-- The timeout note written at lines 175-176.  The two adjacent f-string
literals concatenate without a space, hence `"reachedfor"`. -/
def timeoutMsg (quota caseId : String) : String :=
  "Time limit of " ++ quota ++ "s reached" ++ "for case " ++ caseId ++
    " - no output generated."

/-- The polling loop of lines 160-170.  Each `Tick` is one iteration:
a dead tick (or an exhausted trace) exits the loop normally; otherwise
`time_elapsed` is assigned, compared against `args.runtime_quota` (which
raises `TypeError` when the quota is a `str` or `None`), and on quota
breach the container is stopped once and the loop breaks; otherwise the
logs are drained through `create_log_file` / `store_log_file` and the loop
sleeps until the next tick.  Returns the state, the final value of the
`time_elapsed` local, and an escaping exception if one was raised. -/
def monLoop (quota : PyVal) (storeFlag : Bool) :
    List Tick → RunState → ℚ → RunState × ℚ × Option PyErr
  | [], st, te => (st, te, Option.none)
  | tk :: rest, st, te =>
    if tk.live then
      let te1 := tk.elapsed
      match pyGtQ te1 quota with
      | .error e => (st, te1, some e)
      | .ok true => ({ st with stops := st.stops + 1 }, te1, Option.none)
      | .ok false =>
        match create_log_file (st.logFile.getD "") (some (.bytes tk.logs)) with
        | .error e => (st, te1, some e)
        | .ok c =>
          monLoop quota storeFlag rest
            { st with
                logFile := some c,
                storeCalls := st.storeCalls + store_log_file_calls c.length storeFlag }
            te1
    else (st, te, Option.none)

/-- Lines 187-191: after the monitor block, the log file is stat'ed and, if
it is still empty, rewritten from the `errors` local — which is only bound
when the launch failed with `APIError`, so this path raises `NameError` on
a case that ran but produced no output.  The file content is ASCII (the
sink filters to ASCII), so its byte size equals its length. -/
def emptyLogCheck (storeFlag : Bool) (st : RunState) : RunState × Option PyErr :=
  if (st.logFile.getD "").length == 0 then
    match st.errorsVar with
    | Option.none => (st, some (.nameError "errors"))
    | some errs =>
      match create_log_file (st.logFile.getD "") (some (.str errs)) with
      | .error e => (st, some e)
      | .ok c =>
        ({ st with
            logFile := some c,
            storeCalls := st.storeCalls + store_log_file_calls c.length storeFlag },
          Option.none)
  else (st, Option.none)

/-- Lines 182-191: the final `create_log_file` / `store_log_file` pair, the
`container.remove()`, and the empty-log fallback. -/
def finishCase (lt : LogText) (storeFlag : Bool) (st : RunState) :
    RunState × Option PyErr :=
  match create_log_file (st.logFile.getD "") (some lt) with
  | .error e => (st, some e)
  | .ok c =>
    let st1 :=
      { st with
          logFile := some c,
          storeCalls := st.storeCalls + store_log_file_calls c.length storeFlag }
    emptyLogCheck storeFlag { st1 with removes := st1.removes + 1 }

/-- Lines 159-191 in the branch where the `container` local is bound: run
the polling loop, then re-check `time_elapsed > args.runtime_quota` at line
174 (this comparison raises exactly as in the loop), choose the timeout
note or a final full drain as the log text, and finish the case. -/
def monitorAndFinish (quota storeV : PyVal) (caseId : String) (env : CaseEnvR)
    (st : RunState) : RunState × Option PyErr :=
  match monLoop quota (pyTruthy storeV) env.ticks st 0 with
  | (st1, _, some e) => (st1, some e)
  | (st1, te, Option.none) =>
    match pyGtQ te quota with
    | .error e => (st1, some e)
    | .ok true =>
      finishCase (.str (timeoutMsg (pyRender quota) caseId)) (pyTruthy storeV) st1
    | .ok false =>
      match env.finalLogs with
      | .error e => (st1, some e)
      | .ok bs => finishCase (.bytes bs) (pyTruthy storeV) st1

/-- The loop body of lines 111-191 for one case unit.  Lines 111-131 build
the volume mapping, a pure computation with no observable effect on any
claim, and are elided.  The `try` block first evaluates
`args.subissionid` (line 138) — on the namespace the parser actually
builds this raises `AttributeError`, which the `except
docker.errors.APIError` clause does not catch, so it escapes.  When the
lookup succeeds, `client.containers.run` is invoked; an `APIError` from it
is caught: `remove_docker_container(container_name)` is called (that
helper swallows every exception itself, lines 37-45) and `errors` is
bound.  Note that no path binds `container` to `None`: after a failed
launch on the first case the local is simply unbound, so the guard
`if container is not None` at line 159 raises `NameError`. -/
def caseBody (args : PyArgs) (caseId : String) (env : CaseEnvR)
    (st0 : RunState) : RunState × Option PyErr :=
  match getattr args "subissionid" with
  | .error e => (st0, some e)
  | .ok subv =>
    let containerName := pyRender subv ++ "_case" ++ caseId
    let st1 := { st0 with launches := st0.launches + 1 }
    let st2 :=
      match env.launch with
      | .ok h => { st1 with containerVar := some h }
      | .error msg =>
        { st1 with
            cleanups := st1.cleanups ++ [containerName],
            errorsVar := some (msg ++ "\n") }
    match getattr args "submissionid" with
    | .error e => (st2, some e)
    | .ok _ =>
      let st3 := { st2 with logFile := some "" }
      match st3.containerVar with
      | Option.none => (st3, some (.nameError "container"))
      | some _ =>
        match getattr args "runtime_quota" with
        | .error e => (st3, some e)
        | .ok quota =>
          match getattr args "store" with
          | .error e => (st3, some e)
          | .ok storeV => monitorAndFinish quota storeV caseId env st3

/-- The per-case loop of lines 106-191: run `caseBody` on each enumerated
case unit in order, aborting the run when an exception escapes a body.
`envOf` supplies the runtime's behaviour for each case id. -/
def runCases (args : PyArgs) (envOf : String → CaseEnvR) :
    List (String × String) → RunState → RunState × Option PyErr
  | [], st => (st, Option.none)
  | u :: rest, st =>
    match caseBody args u.2 (envOf u.2) st with
    | (st1, some e) => (st1, some e)
    | (st1, Option.none) => runCases args envOf rest st1

/-! ## Output Collector (lines 195-206) and `tar` (lines 57-65) -/

/-- The mode string passed to `tarfile.open` by `tar` (line 64). -/
def tarOpenMode : String := "w"

/-- `tarfile` semantics of an open mode: only the `"w:gz"`, `"w:bz2"` and
`"w:xz"` modes produce a compressed archive; plain `"w"` writes an
uncompressed tar regardless of the target file's name. -/
def tarIsCompressed (mode : String) : Bool :=
  mode == "w:gz" || mode == "w:bz2" || mode == "w:xz"

/-- Does `glob.glob("*.nii.gz")` match this working-directory file name?
`fnmatch`-style: anything ending in `".nii.gz"`, except hidden files. -/
def isNiiGzMatch (f : String) : Bool :=
  strEndsWith f ".nii.gz" && !(strStartsWith f ".")

/-- The matching result files, in directory order. -/
def globNiiGz (files : List String) : List String := files.filter isNiiGzMatch

/-- The error message of lines 203-206 (two adjacent string literals). -/
def noResultsMsg : String :=
  "No *.nii.gz files found; please check whether running the " ++
    "Docker container locally will result in a NIfTI file."

/-- What the Output Collector produced: the staging directory, the files
moved into it, and the archive's path and `tarfile` open mode. -/
structure CollectResult where
  staging : String
  moved : List String
  archivePath : String
  archiveMode : String
deriving DecidableEq

/-- Lines 197-206: if any `*.nii.gz` files match, create the `predictions`
staging directory, move every match into it and tar the directory into
`predictions.tar.gz` (opened with mode `"w"`); otherwise raise the
no-result-files `Exception`. -/
def outputCollector (workFiles : List String) : Except PyErr CollectResult :=
  if globNiiGz workFiles ≠ [] then
    .ok { staging := "predictions", moved := globNiiGz workFiles,
          archivePath := "predictions.tar.gz", archiveMode := tarOpenMode }
  else .error (.exception noResultsMsg)

/-! ## Entry point -/

/-- The namespace built by the `argparse` declarations of lines 210-227:
`submissionid`, `docker_repository`, `docker_digest`, `input_dir`,
`synapse_config`, `parentid` and `status` are required strings;
`runtime_quota` has no `type=` converter, so it is the raw option string
(or `None` when the option is absent); `store` is a `store_true` boolean.
No attribute named `subissionid` is ever defined. -/
def parsedArgs (subid repo digest inp cfg : String) (quota : Option String)
    (storeFlag : Bool) (parent status : String) : PyArgs :=
  ⟨[("submissionid", .str subid), ("docker_repository", .str repo),
    ("docker_digest", .str digest), ("input_dir", .str inp),
    ("synapse_config", .str cfg),
    ("runtime_quota", match quota with
      | some q => .str q
      | Option.none => .noneV),
    ("store", .bool storeFlag), ("parentid", .str parent),
    ("status", .str status)]⟩

/-- Embedding of `main(syn, args)` (lines 79-206).  The client construction,
registry login and `getpass` call (lines 87-96) touch only external
collaborators and are elided; `remove_docker_image` (line 193) swallows its
own errors and has no observable effect on any claim.  The run aborts when
`args.status == "INVALID"`, then enumerates case units from the input root,
runs the per-case loop, and finally collects the output files. -/
def mainModel (args : PyArgs) (fs : RootFS) (envOf : String → CaseEnvR)
    (workFiles : List String) : Except PyErr CollectResult :=
  match getattr args "status" with
  | .error e => .error e
  | .ok v =>
    if pyRender v = "INVALID" then .error (.exception "Docker image is invalid")
    else
      match getattr args "input_dir" with
      | .error e => .error e
      | .ok inp =>
        match runCases args envOf (caseUnits (pyRender inp) fs) initRunState with
        | (_, some e) => .error e
        | (_, Option.none) => outputCollector workFiles

/-! ## Concrete fixtures used by the claim theorems -/

/-- An arguments namespace like the one `__main__` builds, but additionally
carrying the misspelled attribute `subissionid` (with the same value as
`submissionid`) and the given `runtime_quota` value.  The parser itself can
never produce this namespace — that is claim C5 — but `main(syn, args)` is
an ordinary function and accepts it; it is the minimal input on which the
code past line 138 is reachable at all. -/
def argsTypo (quota : PyVal) : PyArgs :=
  ⟨("subissionid", .str "9714553") ::
    (parsedArgs "9714553" "repo" "digest" "/in" "cfg" Option.none false
        "syn123" "VALIDATED").attrs.map
      (fun p => if p.1 = "runtime_quota" then (p.1, quota) else p)⟩

/-- A runtime in which `client.containers.run` always raises
`docker.errors.APIError` (the spec's simulated always-failing runtime). -/
def envLaunchFail : CaseEnvR := ⟨.error "500 Server Error", [], .ok []⟩

/-- A runtime whose container launches and is still live at the first poll
tick (elapsed time 0). -/
def envLiveOnce : CaseEnvR := ⟨.ok 7, [⟨true, 0, strBytes "out1"⟩], .ok []⟩

/-- The spec's quota scenario: the container launches and is still live at
poll ticks with elapsed times 0 s, 60 s and 120 s. -/
def envLiveQuota : CaseEnvR :=
  ⟨.ok 7,
    [⟨true, 0, strBytes "out1"⟩, ⟨true, 60, strBytes "out2"⟩,
      ⟨true, 120, strBytes "out3"⟩],
    .ok []⟩

/-- The spec's drain scenario: the container is live at the first tick with
partial output, then exits between ticks; the final full-history drain
returns the accumulated two lines. -/
def envExitBetween : CaseEnvR :=
  ⟨.ok 7, [⟨true, 0, strBytes "line1"⟩, ⟨false, 0, []⟩],
    .ok (strBytes ("line1" ++ "\n" ++ "line2"))⟩

/-- An input root with exactly one immediate subdirectory `A0001`, which in
turn contains a nested subdirectory `B0002`. -/
def cexTree : DirTree :=
  .node "data" (.cons (.node "A0001" (.cons (.node "B0002" .nil) .nil)) .nil)

/-! ## Helper lemmas -/

/-- The size ceiling of `store_log_file` is exactly the 50000-byte bound:
`st_size / 1000.0 <= 50` holds iff `st_size ≤ 50000`. -/
theorem sizeWithinCeiling_iff (n : Nat) : sizeWithinCeiling n ↔ n ≤ 50000 := by
  unfold sizeWithinCeiling
  rw [div_le_iff₀ (by norm_num : (0 : ℚ) < 1000)]
  norm_num

/-- Appending a non-empty string on the right never yields the empty
string. -/
theorem append_ne_empty_right (a b : String) (hb : b ≠ "") : a ++ b ≠ "" := by
  intro h
  apply hb
  apply String.ext
  have hd : (a ++ b).data = a.data ++ b.data := String.data_append a b
  rw [h] at hd
  exact (List.append_eq_nil.mp hd.symm).2

/-- `os.path.join` with a non-empty final component is non-empty. -/
theorem pathJoin_ne_empty (a b : String) (hb : b ≠ "") : pathJoin a b ≠ "" := by
  unfold pathJoin
  split
  · exact hb
  · split
    · exact append_ne_empty_right a b hb
    · exact append_ne_empty_right (a ++ "/") b hb

/-- `s[-5:]` of a non-empty string is non-empty. -/
theorem pyTakeLast_ne_empty (n : Nat) (hn : n ≠ 0) (s : String) (hs : s ≠ "") :
    pyTakeLast n s ≠ "" := by
  intro h
  apply hs
  apply String.ext
  have hd : ((s.data.reverse.take n).reverse : List Char) = [] := by
    have := congrArg String.data h
    simpa [pyTakeLast] using this
  rw [List.reverse_eq_nil_iff, List.take_eq_nil_iff] at hd
  rcases hd with h1 | h1
  · exact absurd h1 hn
  · rw [List.reverse_eq_nil_iff] at h1
    exact h1

/-- The directory count of a forest splits into the number of its trees
plus the descendant counts of the trees. -/
theorem forestDirCount_eq : ∀ cs : DirForest,
    forestDirCount cs = cs.names.length + forestSubSum cs
  | .nil => rfl
  | .cons t ts => by
    simp [forestDirCount, DirForest.names, forestSubSum, forestDirCount_eq ts]
    omega

mutual
/-- The walk of a tree contributes one case unit per descendant directory
of the tree, at every depth. -/
theorem unitsLen_tree : ∀ (p : String) (t : DirTree),
    ((walkTree p t).flatMap unitsOf).length = treeSubCount t
  | p, .node n cs => by
    simp [walkTree, treeSubCount, unitsOf, unitsLen_forest p cs,
      forestDirCount_eq cs]
/-- The walk of a forest contributes one case unit per directory of the
forest's trees and their descendants. -/
theorem unitsLen_forest : ∀ (p : String) (cs : DirForest),
    ((walkForest p cs).flatMap unitsOf).length = forestSubSum cs
  | _, .nil => rfl
  | p, .cons t ts => by
    simp [walkForest, forestSubSum, unitsLen_tree (pathJoin p t.name) t,
      unitsLen_forest p ts]
end

/-- In a forest with `forestOK`, every tree name is non-empty. -/
theorem names_ne_empty : ∀ cs : DirForest, forestOK cs = true →
    ∀ s ∈ cs.names, s ≠ ""
  | .cons (.node n cs2) ts, h, s, hs => by
    simp [forestOK, treeOK] at h
    simp [DirForest.names, DirTree.name] at hs
    rcases hs with rfl | hs
    · intro h0
      subst h0
      simp at h
    · exact names_ne_empty ts h.2 s hs

mutual
/-- Every subdirectory name reported by the walk of a `treeOK` tree is
non-empty. -/
theorem walk_names_tree : ∀ (p : String) (t : DirTree), treeOK t = true →
    ∀ rs ∈ walkTree p t, ∀ s ∈ rs.2, s ≠ ""
  | p, .node n cs, h, rs, hrs, s, hs => by
    have h2 : forestOK cs = true := by
      simp [treeOK] at h
      exact h.2
    simp [walkTree] at hrs
    rcases hrs with rfl | hrs
    · exact names_ne_empty cs h2 s hs
    · exact walk_names_forest p cs h2 rs hrs s hs
/-- Every subdirectory name reported by the walk of a `forestOK` forest is
non-empty. -/
theorem walk_names_forest : ∀ (p : String) (cs : DirForest),
    forestOK cs = true → ∀ rs ∈ walkForest p cs, ∀ s ∈ rs.2, s ≠ ""
  | _, .nil, _, _, hrs, _, _ => by simp [walkForest] at hrs
  | p, .cons t ts, h, rs, hrs, s, hs => by
    simp [forestOK] at h
    simp [walkForest] at hrs
    rcases hrs with hrs | hrs
    · exact walk_names_tree (pathJoin p t.name) t h.1 rs hrs s hs
    · exact walk_names_forest p ts h.2 rs hrs s hs
end

/-- Because `create_log_file` truncates (mode `'w'`), a drain sequence in
which every drain but possibly the last succeeds ends with the file holding
exactly the normalisation of the last drained snapshot. -/
theorem drainSequence_eq_last : ∀ (texts : List LogText) (h : texts ≠ []),
    (∀ t ∈ texts.dropLast, ∃ c, create_log_file "" (some t) = .ok c) →
    drainSequence texts = create_log_file "" (some (texts.getLast h))
  | [t], _, _ => by
    cases hc : create_log_file "" (some t) <;>
      simp [drainSequence, List.foldlM, hc]
  | t :: r :: rs, h, hok => by
    obtain ⟨c, hc⟩ := hok t (by simp)
    have h2 : (r :: rs : List LogText) ≠ [] := by simp
    have step : drainSequence (t :: r :: rs) =
        (r :: rs).foldlM (fun prev u => create_log_file prev (some u)) c := by
      simp [drainSequence, List.foldlM_cons]
      rw [show create_log_file "" (some t) = .ok c from hc]
      rfl
    have init : (r :: rs).foldlM (fun prev u => create_log_file prev (some u)) c =
        drainSequence (r :: rs) := rfl
    have ih := drainSequence_eq_last (r :: rs) h2
      (fun u hu => hok u (by simp [hu]))
    rw [step, init, ih, List.getLast_cons h2]

/-! ## Claim theorems -/

/-- C1: the claim says a launch `APIError` leads to exactly one stop+remove
cleanup for the attempted container name, no escaping exception, and the
loop proceeding to the next case.  On the code, cleanup is indeed invoked
exactly once with the attempted name, but the `container` local was never
bound (no path assigns `None` to it), so the guard `if container is not
None` at line 159 raises `NameError`, which escapes `main` and aborts the
run — the failure *is* fatal.  (With the namespace the parser actually
builds, the run aborts even earlier, on `args.subissionid`; see C5.  The
input here is the minimal `main` argument on which line 139 is reachable.) -/
theorem c1_launch_failure_cleanup_then_nameerror :
    caseBody (argsTypo (.str "90")) "00001" envLaunchFail initRunState =
      ({ containerVar := Option.none, errorsVar := some "500 Server Error\n",
         logFile := some "", launches := 1,
         cleanups := ["9714553_case00001"], stops := 0, removes := 0,
         storeCalls := 0 }, some (.nameError "container")) ∧
    (caseBody (argsTypo (.str "90")) "00001" envLaunchFail
        initRunState).1.cleanups = ["9714553_case00001"] :=
  ⟨rfl, rfl⟩

/-- C2: the claim says that with quota 90 s and poll interval 60 s, an
instance still live at t = 120 s makes the monitor transition to TimedOut,
issue exactly one forced stop and persist the quota message.  On the code,
`--runtime_quota` is declared without `type=` (line 221), so
`args.runtime_quota` is the *string* `"90"`, and the comparison
`time_elapsed > args.runtime_quota` raises `TypeError` at the very first
poll tick: no stop is issued and the exception escapes (first conjunct).
With an integer quota — the evident intent — the claimed behaviour does
hold: one stop, loop exited at the t = 120 s tick, and the log file holds
the quota message naming the quota and the case id instead of the drained
workload output (second conjunct). -/
theorem c2_quota_string_typeerror :
    caseBody (argsTypo (.str "90")) "00001" envLiveOnce initRunState =
      ({ containerVar := some 7, errorsVar := Option.none, logFile := some "",
         launches := 1, cleanups := [], stops := 0, removes := 0,
         storeCalls := 0 }, some .typeError) ∧
    caseBody (argsTypo (.int 90)) "00001" envLiveQuota initRunState =
      ({ containerVar := some 7, errorsVar := Option.none,
         logFile := some (timeoutMsg "90" "00001"), launches := 1,
         cleanups := [], stops := 1, removes := 1, storeCalls := 3 },
        Option.none) :=
  ⟨rfl, rfl⟩

/-- C3, counterexample: a root with exactly one immediate subdirectory
(`A0001`, which contains a nested `B0002`) yields *two* case units — one of
them for the nested directory — because `os.walk` descends; the claim's
"exactly N, none for more deeply nested directories" fails at N = 1. -/
theorem c3_walk_descends_cex :
    caseUnits "/data" (.dir cexTree) =
      [("/data/A0001", "A0001"), ("/data/A0001/B0002", "B0002")] ∧
    cexTree.children.names.length = 1 ∧
    (caseUnits "/data" (.dir cexTree)).length ≠ 1 :=
  ⟨rfl, rfl, by decide⟩

/-- C3, amended: the Case Enumerator yields exactly one case unit per
subdirectory of the input root at *every* depth (`os.walk` descends), each
with case id equal to the final five characters of the subdirectory path
and non-empty whenever the directory names are non-empty. -/
theorem c3_units_per_descendant (root : String) (t : DirTree)
    (h : treeOK t = true) :
    (caseUnits root (.dir t)).length = treeSubCount t ∧
    ∀ u ∈ caseUnits root (.dir t), u.2 = pyTakeLast 5 u.1 ∧ u.2 ≠ "" := by
  refine ⟨unitsLen_tree root t, ?_⟩
  intro u hu
  simp only [caseUnits, osWalk, unitsOf, List.mem_flatMap, List.mem_map] at hu
  obtain ⟨rs, hrs, sub, hsub, hu⟩ := hu
  subst hu
  refine ⟨rfl, ?_⟩
  exact pyTakeLast_ne_empty 5 (by decide) _
    (pathJoin_ne_empty rs.1 sub (walk_names_tree root t h rs hrs sub hsub))

/-- C3, witness for the amended theorem at the concrete two-level tree. -/
theorem c3_units_per_descendant_witness :
    treeOK cexTree = true ∧
    ((caseUnits "/data" (.dir cexTree)).length = treeSubCount cexTree ∧
      ∀ u ∈ caseUnits "/data" (.dir cexTree),
        u.2 = pyTakeLast 5 u.1 ∧ u.2 ≠ "") :=
  ⟨by decide, c3_units_per_descendant "/data" cexTree (by decide)⟩

/-- C4: the claim says that with the `--store` flag set and
`0 < size ≤ 50000` the `syn.store` call is made.  The code guards the call
with `if not store:` (line 30), so with the flag set (`store=True`) the
call is *never* made — zero calls for every size — while with the flag
absent (`store=False`) it is made.  The polarity is inverted. -/
theorem c4_store_flag_inverted :
    store_log_file_calls 100 true = 0 ∧
    store_log_file_calls 100 false = 1 ∧
    ∀ st_size : Nat, store_log_file_calls st_size true = 0 := by
  refine ⟨by decide, by decide, fun st_size => ?_⟩
  unfold store_log_file_calls
  split <;> rfl

/-- C5: line 138 reads `args.subissionid` while the parser (lines 210-227)
only defines `submissionid`; for every namespace the parser can build, the
lookup raises `AttributeError` inside the `try` block, the
`except docker.errors.APIError` clause does not catch it, and the case body
aborts with the state unchanged — in particular before any
`client.containers.run` call. -/
theorem c5_subissionid_lookup_aborts (subid repo digest inp cfg parent
    status : String) (quota : Option String) (storeFlag : Bool)
    (caseId : String) (env : CaseEnvR) (st : RunState) :
    caseBody (parsedArgs subid repo digest inp cfg quota storeFlag parent
        status) caseId env st =
      (st, some (.attributeError "subissionid")) :=
  rfl

/-- C6, counterexample: the byte sequence `b'\xff'` is not decodable and
`create_log_file` raises `UnicodeDecodeError` — the claim's "succeeds for
every byte sequence, undecodable bytes are dropped" fails: only the later
`encode("ascii", "ignore")` step drops code points; the `decode("utf-8")`
step is strict. -/
theorem c6_invalid_utf8_raises :
    create_log_file "" (some (.bytes [255])) = .error .unicodeDecodeError :=
  rfl

/-- C6, amended: `create_log_file` raises exactly when the byte sequence is
not valid UTF-8; when the strict decode succeeds, the call succeeds and
writes the decoded text with its non-ASCII code points dropped. -/
theorem c6_utf8_strict (bs : List Nat) :
    ((∃ e, create_log_file "" (some (.bytes bs)) = .error e) ↔
      utf8DecodeChars bs = Option.none) ∧
    ∀ cs, utf8DecodeChars bs = some cs →
      create_log_file "" (some (.bytes bs)) =
        .ok (asciiIgnore (String.mk cs)) := by
  cases h : utf8DecodeChars bs <;> simp [create_log_file, h]

/-- C6, witness for the amended theorem on the ASCII input `b"hi"`. -/
theorem c6_utf8_strict_witness :
    utf8DecodeChars [104, 105] = some ("hi".data) ∧
    create_log_file "" (some (.bytes [104, 105])) =
      .ok (asciiIgnore (String.mk "hi".data)) ∧
    asciiIgnore (String.mk "hi".data) = "hi" :=
  ⟨rfl, (c6_utf8_strict [104, 105]).2 "hi".data rfl, rfl⟩

/-- C7, counterexample: with a missing input root, `os.walk` (default
`onerror=None`) silently yields nothing — no `FilesystemError` and no
fatal failure before case processing; the run continues all the way to the
Output Collector and, when a stale `*.nii.gz` file happens to sit in the
working directory, even *succeeds*. -/
theorem c7_missing_root_cex :
    caseUnits "/missing" .missing = [] ∧
    mainModel (parsedArgs "97000" "repo" "digest" "/missing" "cfg"
        Option.none false "syn123" "VALIDATED") .missing
        (fun _ => envLaunchFail) ["stale.nii.gz"] =
      .ok ⟨"predictions", ["stale.nii.gz"], "predictions.tar.gz", "w"⟩ :=
  ⟨rfl, rfl⟩

/-- C7, amended: a missing or non-directory input root yields zero case
units and no filesystem error; for a non-INVALID status the run reduces to
the Output Collector over the working directory, so it fails (with the
no-result-files `Exception`, not a `FilesystemError`) exactly when no
result file is present. -/
theorem c7_missing_root_silent (subid repo digest inp cfg parent
    status : String) (quota : Option String) (storeFlag : Bool)
    (fs : RootFS) (envOf : String → CaseEnvR) (workFiles : List String)
    (hfs : fs = .missing ∨ fs = .nondir) (hstatus : status ≠ "INVALID") :
    caseUnits inp fs = [] ∧
    mainModel (parsedArgs subid repo digest inp cfg quota storeFlag parent
        status) fs envOf workFiles = outputCollector workFiles := by
  have step : ∀ gs : RootFS, caseUnits inp gs = [] →
      mainModel (parsedArgs subid repo digest inp cfg quota storeFlag parent
        status) gs envOf workFiles =
      (if status = "INVALID"
        then .error (.exception "Docker image is invalid")
        else outputCollector workFiles) := by
    intro gs hgs
    show (if status = "INVALID"
        then (Except.error (.exception "Docker image is invalid") :
          Except PyErr CollectResult)
        else
          match runCases (parsedArgs subid repo digest inp cfg quota storeFlag
              parent status) envOf (caseUnits inp gs) initRunState with
          | (_, some e) => .error e
          | (_, Option.none) => outputCollector workFiles) = _
    rw [hgs]
    rfl
  rcases hfs with rfl | rfl
  · exact ⟨rfl, by rw [step RootFS.missing rfl, if_neg hstatus]⟩
  · exact ⟨rfl, by rw [step RootFS.nondir rfl, if_neg hstatus]⟩

/-- C7, witness for the amended theorem at a concrete missing root. -/
theorem c7_missing_root_silent_witness :
    ((RootFS.missing = RootFS.missing ∨ RootFS.missing = RootFS.nondir) ∧
      "VALIDATED" ≠ "INVALID") ∧
    (caseUnits "/missing" .missing = [] ∧
      mainModel (parsedArgs "97000" "repo" "digest" "/missing" "cfg"
          Option.none false "syn123" "VALIDATED") .missing
          (fun _ => envLaunchFail) [] = outputCollector []) :=
  ⟨⟨Or.inl rfl, by decide⟩,
    c7_missing_root_silent "97000" "repo" "digest" "/missing" "cfg" "syn123"
      "VALIDATED" Option.none false .missing (fun _ => envLaunchFail) []
      (Or.inl rfl) (by decide)⟩

/-- C8: a `syn.store` call happens only when `0 < size ≤ 50000` (necessary
condition, for either polarity of the flag), and both a 0-byte and a
60000-byte log file produce zero store calls. -/
theorem c8_store_size_gate (st_size : Nat) (storeFlag : Bool)
    (h : store_log_file_calls st_size storeFlag ≠ 0) :
    (0 < st_size ∧ st_size ≤ 50000) ∧
    store_log_file_calls 0 storeFlag = 0 ∧
    store_log_file_calls 60000 storeFlag = 0 := by
  refine ⟨?_, ?_, ?_⟩
  · unfold store_log_file_calls at h
    by_cases hc : 0 < st_size ∧ sizeWithinCeiling st_size
    · exact ⟨hc.1, (sizeWithinCeiling_iff st_size).mp hc.2⟩
    · rw [if_neg hc] at h
      exact absurd rfl h
  · cases storeFlag <;> decide
  · cases storeFlag <;> decide

/-- C8, witness at size 100 with the flag absent (the polarity on which the
call actually happens; see C4). -/
theorem c8_store_size_gate_witness :
    store_log_file_calls 100 false ≠ 0 ∧
    ((0 < 100 ∧ 100 ≤ 50000) ∧ store_log_file_calls 0 false = 0 ∧
      store_log_file_calls 60000 false = 0) :=
  ⟨by decide, c8_store_size_gate 100 false (by decide)⟩

/-- C9: each drain replaces the previous captured text (`create_log_file`
truncates with mode `'w'`), so after any successful drain sequence the log
file holds exactly the normalisation of the last full-history snapshot;
and in the monitor (run with an integer quota so that the poll comparison
works, see C2) an instance that exits between ticks with accumulated
output `"line1\nline2"` leaves exactly that as the final file content, not
a concatenation of the drains. -/
theorem c9_drain_replaces (texts : List LogText) (h : texts ≠ [])
    (hok : ∀ t ∈ texts.dropLast, ∃ c, create_log_file "" (some t) = .ok c) :
    drainSequence texts = create_log_file "" (some (texts.getLast h)) ∧
    (caseBody (argsTypo (.int 900)) "00001" envExitBetween
        initRunState).1.logFile = some "line1\nline2" ∧
    (caseBody (argsTypo (.int 900)) "00001" envExitBetween
        initRunState).2 = Option.none :=
  ⟨drainSequence_eq_last texts h hok, rfl, rfl⟩

/-- C9, witness: the two-drain sequence of the spec scenario. -/
theorem c9_drain_replaces_witness :
    drainSequence [LogText.bytes (strBytes "line1"),
        LogText.bytes (strBytes "line1\nline2")] =
      create_log_file "" (some (LogText.bytes (strBytes "line1\nline2"))) ∧
    create_log_file "" (some (LogText.bytes (strBytes "line1\nline2"))) =
      .ok "line1\nline2" :=
  ⟨(c9_drain_replaces
      [LogText.bytes (strBytes "line1"), LogText.bytes (strBytes "line1\nline2")]
      (by simp)
      (fun t ht => by
        simp only [List.dropLast, List.mem_singleton] at ht
        subst ht
        exact ⟨"line1", rfl⟩)).1,
    rfl⟩

/-- C10, counterexample: with one matching file the collector does produce
a single archive at the fixed path, but `tar` opens it with mode `"w"`
(line 64) — an *uncompressed* tar despite the `.tar.gz` name — so the
claim's "compressed archive" fails. -/
theorem c10_uncompressed_cex :
    outputCollector ["a.nii.gz"] =
      .ok ⟨"predictions", ["a.nii.gz"], "predictions.tar.gz", "w"⟩ ∧
    tarIsCompressed "w" = false :=
  ⟨rfl, rfl⟩

/-- C10, amended: after the loop the run raises the fatal no-result-files
error iff zero `*.nii.gz` files exist in the working directory; otherwise
every matching file is moved into the `predictions` staging directory and
exactly one archive — an uncompressed tar, despite its `.tar.gz` name — is
produced at the fixed path `predictions.tar.gz`. -/
theorem c10_collector (workFiles : List String) :
    ((∃ r, outputCollector workFiles = .ok r) ↔ globNiiGz workFiles ≠ []) ∧
    (outputCollector workFiles = .error (.exception noResultsMsg) ↔
      globNiiGz workFiles = []) ∧
    ∀ r, outputCollector workFiles = .ok r →
      r.moved = globNiiGz workFiles ∧ r.staging = "predictions" ∧
      r.archivePath = "predictions.tar.gz" ∧
      tarIsCompressed r.archiveMode = false := by
  by_cases hg : globNiiGz workFiles = [] <;>
    simp [outputCollector, hg, tarOpenMode, tarIsCompressed]

/-- C10, witness for the amended theorem at one matching file. -/
theorem c10_collector_witness :
    globNiiGz ["a.nii.gz"] ≠ [] ∧
    ((CollectResult.mk "predictions" ["a.nii.gz"] "predictions.tar.gz"
        "w").moved = globNiiGz ["a.nii.gz"] ∧
      (CollectResult.mk "predictions" ["a.nii.gz"] "predictions.tar.gz"
        "w").staging = "predictions" ∧
      (CollectResult.mk "predictions" ["a.nii.gz"] "predictions.tar.gz"
        "w").archivePath = "predictions.tar.gz" ∧
      tarIsCompressed (CollectResult.mk "predictions" ["a.nii.gz"]
        "predictions.tar.gz" "w").archiveMode = false) :=
  ⟨by decide,
    (c10_collector ["a.nii.gz"]).2.2
      ⟨"predictions", ["a.nii.gz"], "predictions.tar.gz", "w"⟩ rfl⟩

end RunDocker
